import Mathlib

/-!
# Light spot analysis — verification of the image-statistics core

Shallow embedding of `Light_spot_analysis.py`.  A grayscale image is a list of
rows, each row a list of natural-number intensities (uint8 samples; all
arithmetic in the source is exact on these values, so `ℕ`/`ℚ` model it
faithfully).  `cv2.moments` raw moments, the centroid of `process_image`
(lines 39–41), the population statistics `np.std`/`np.var` (lines 43–44), the
axis projections `np.sum(..., axis=0/1)` (lines 46–47), the comparator
`np.isclose(expected, actual, atol=0.01)` of `TestManager` (lines 104–129),
the config loader (lines 12–18), the image loader (lines 29–33) and the JSON
sink (lines 99–101) are each embedded below next to the claims about them.
-/

namespace LightSpot

/-- A grayscale image: a list of rows, each row a list of pixel intensities.
Row index `y` is the first array axis, column index `x` the second, matching
the numpy array layout `gray_image[y][x]`. -/
abbrev Image := List (List ℕ)

/-- All pixel intensity samples of the image, row-major. -/
def pixels (img : Image) : List ℕ := img.flatten

/-- Number of pixel samples. -/
def numPixels (img : Image) : ℕ := (pixels img).length

/-- Total intensity mass: the sum of all pixel intensities. -/
def totalIntensity (img : Image) : ℕ := (pixels img).sum

/-- `Σ_i i * l[i]`: index-weighted sum of a list, used for first-order raw
moments. Out-of-range reads default to 0, matching that the sum only ranges
over the actual indices. -/
def idxWeightedSum (l : List ℕ) : ℕ :=
  ((List.range l.length).map (fun i => i * l.getD i 0)).sum

/-- Zeroth raw moment `m00 = Σ_y Σ_x I(x,y)` as computed by
`cv2.moments(gray_image)["m00"]` (line 39): the total intensity mass. -/
def m00 (img : Image) : ℕ := (img.map List.sum).sum

/-- First raw moment in x: `m10 = Σ_y Σ_x x·I(x,y)` (`cv2.moments`, line 39).
`x` is the column index. -/
def m10 (img : Image) : ℕ := (img.map idxWeightedSum).sum

/-- First raw moment in y: `m01 = Σ_y Σ_x y·I(x,y)` (`cv2.moments`, line 39).
`y` is the row index, so this is the index-weighted sum of the row sums. -/
def m01 (img : Image) : ℕ := idxWeightedSum (img.map List.sum)

/-- Lines 40–41:
`x_center = int(moments["m10"] / moments["m00"])` and
`y_center = int(moments["m01"] / moments["m00"])`.
The moments are non-negative, so the Python `int(...)` truncation of the true
division is floor division, i.e. `ℕ` division.  When `m00 = 0` the Python
division raises `ZeroDivisionError` (the moments are plain Python floats);
this is modelled by the `Except` error branch.  No guard exists in the
source. -/
def centroid (img : Image) : Except String (ℕ × ℕ) :=
  if m00 img = 0 then .error "ZeroDivisionError: float division by zero"
  else .ok (m10 img / m00 img, m01 img / m00 img)

/-- A synthetic image of `H` rows and `W` columns that is `v` at column `x0`
of row `y0` and zero everywhere else. -/
def singlePixelImage (H W x0 y0 v : ℕ) : Image :=
  (List.range H).map (fun y => (List.range W).map (fun x => if x = x0 ∧ y = y0 then v else 0))

/- ### Summation helper lemmas -/

lemma sum_map_range_support (W a : ℕ) (f : ℕ → ℕ) (hf : ∀ x, x ≠ a → f x = 0) :
    ((List.range W).map f).sum = if a < W then f a else 0 := by
  induction W with
  | zero => simp
  | succ n ih =>
    rw [List.range_succ, List.map_append, List.sum_append]
    simp only [List.map_cons, List.map_nil, List.sum_cons, List.sum_nil, Nat.add_zero]
    rw [ih]
    by_cases h1 : a < n
    · have h2 : n ≠ a := by omega
      rw [hf n h2]
      simp [h1, Nat.lt_succ_of_lt h1]
    · by_cases h3 : a = n
      · subst h3
        simp [h1, Nat.lt_succ_self]
      · have h4 : n ≠ a := fun h => h3 h.symm
        rw [hf n h4]
        have h5 : ¬ a < n + 1 := by omega
        simp [h1, h5]

lemma getD_map_range (W x : ℕ) (g : ℕ → ℕ) :
    ((List.range W).map g).getD x 0 = if x < W then g x else 0 := by
  by_cases h : x < W
  · rw [List.getD_eq_getElem?_getD, List.getElem?_map, List.getElem?_range h]
    simp [h]
  · rw [List.getD_eq_getElem?_getD, List.getElem?_map]
    rw [List.getElem?_eq_none (by simpa using Nat.le_of_not_lt h)]
    simp [h]

lemma idxWeightedSum_map_range (W : ℕ) (g : ℕ → ℕ) :
    idxWeightedSum ((List.range W).map g) = ((List.range W).map (fun i => i * g i)).sum := by
  unfold idxWeightedSum
  rw [List.length_map, List.length_range]
  refine congrArg List.sum (List.map_congr_left ?_)
  intro i hi
  rw [List.mem_range] at hi
  rw [getD_map_range, if_pos hi]

/- ### Moments of the single-pixel image -/

lemma singlePixel_row (H W x0 y0 v y : ℕ) (hy : y < H) :
    (singlePixelImage H W x0 y0 v).getD y [] =
      (List.range W).map (fun x => if x = x0 ∧ y = y0 then v else 0) := by
  unfold singlePixelImage
  rw [List.getD_eq_getElem?_getD, List.getElem?_map, List.getElem?_range hy]
  rfl

lemma singlePixel_rowSum (W x0 y0 v y : ℕ) (hx : x0 < W) :
    ((List.range W).map (fun x => if x = x0 ∧ y = y0 then v else 0)).sum =
      if y = y0 then v else 0 := by
  rw [sum_map_range_support W x0 _ (fun x hx0 => by simp [hx0]), if_pos hx]
  by_cases h : y = y0 <;> simp [h]

lemma singlePixel_map_sum (H W x0 y0 v : ℕ) (hx : x0 < W) :
    (singlePixelImage H W x0 y0 v).map List.sum =
      (List.range H).map (fun y => if y = y0 then v else 0) := by
  unfold singlePixelImage
  rw [List.map_map]
  refine List.map_congr_left ?_
  intro y _
  exact singlePixel_rowSum W x0 y0 v y hx

lemma singlePixel_m00 (H W x0 y0 v : ℕ) (hx : x0 < W) (hy : y0 < H) :
    m00 (singlePixelImage H W x0 y0 v) = v := by
  unfold m00
  rw [singlePixel_map_sum H W x0 y0 v hx]
  rw [sum_map_range_support H y0 _ (fun y hy0 => by simp [hy0]), if_pos hy]
  simp

lemma singlePixel_m10 (H W x0 y0 v : ℕ) (hx : x0 < W) (hy : y0 < H) :
    m10 (singlePixelImage H W x0 y0 v) = x0 * v := by
  unfold m10 singlePixelImage
  rw [List.map_map]
  have hrow : ∀ y : ℕ,
      (idxWeightedSum ∘ fun y => (List.range W).map fun x => if x = x0 ∧ y = y0 then v else 0) y =
        if y = y0 then x0 * v else 0 := by
    intro y
    simp only [Function.comp_apply]
    rw [idxWeightedSum_map_range]
    rw [sum_map_range_support W x0 _ (fun x hx0 => by simp [hx0]), if_pos hx]
    by_cases h : y = y0 <;> simp [h]
  rw [List.map_congr_left (fun y _ => hrow y)]
  rw [sum_map_range_support H y0 _ (fun y hy0 => by simp [hy0]), if_pos hy]
  simp

lemma singlePixel_m01 (H W x0 y0 v : ℕ) (hx : x0 < W) (hy : y0 < H) :
    m01 (singlePixelImage H W x0 y0 v) = y0 * v := by
  unfold m01
  rw [singlePixel_map_sum H W x0 y0 v hx]
  rw [idxWeightedSum_map_range]
  rw [sum_map_range_support H y0 _ (fun y hy0 => by simp [hy0]), if_pos hy]
  simp

/-- C1: for a synthetic image with a single pixel of nonzero intensity `v` at
column `x0`, row `y0` and all other pixels zero, the centroid
`(int(m10/m00), int(m01/m00))` of `process_image` (lines 39–41) is exactly
`(x0, y0)`. -/
theorem centroid_single_pixel (H W x0 y0 v : ℕ) (hx : x0 < W) (hy : y0 < H) (hv : 0 < v) :
    centroid (singlePixelImage H W x0 y0 v) = .ok (x0, y0) := by
  unfold centroid
  rw [singlePixel_m00 H W x0 y0 v hx hy, singlePixel_m10 H W x0 y0 v hx hy,
    singlePixel_m01 H W x0 y0 v hx hy]
  rw [if_neg (Nat.pos_iff_ne_zero.mp hv)]
  rw [Nat.mul_div_cancel x0 hv, Nat.mul_div_cancel y0 hv]

theorem centroid_single_pixel_witness :
    (3 < 7 ∧ 2 < 5 ∧ 0 < 10) ∧ centroid (singlePixelImage 5 7 3 2 10) = .ok (3, 2) :=
  ⟨by decide, centroid_single_pixel 5 7 3 2 10 (by decide) (by decide) (by decide)⟩

/- ### C3: division-by-zero guard structure of the centroid -/

lemma m00_eq_totalIntensity (img : Image) : m00 img = totalIntensity img := by
  unfold m00 totalIntensity pixels
  rw [List.sum_flatten]

/-- C3: an all-zero image has zero total mass, so the centroid division of
`process_image` (lines 40–41) divides by a zero `m00` and fails with a
`ZeroDivisionError`; for any image of nonzero total intensity mass the
division succeeds (no division by zero occurs). -/
theorem centroid_zero_mass_guard :
    (∀ img : Image, (∀ row ∈ img, ∀ p ∈ row, p = 0) →
      centroid img = .error "ZeroDivisionError: float division by zero") ∧
    (∀ img : Image, totalIntensity img ≠ 0 → ∃ x y, centroid img = .ok (x, y)) := by
  constructor
  · intro img hz
    have h0 : m00 img = 0 := by
      unfold m00
      refine List.sum_eq_zero ?_
      intro s hs
      rw [List.mem_map] at hs
      obtain ⟨row, hrow, hsum⟩ := hs
      subst hsum
      exact List.sum_eq_zero (hz row hrow)
    unfold centroid
    rw [if_pos h0]
  · intro img hm
    have h0 : m00 img ≠ 0 := by rw [m00_eq_totalIntensity]; exact hm
    refine ⟨m10 img / m00 img, m01 img / m00 img, ?_⟩
    unfold centroid
    rw [if_neg h0]

theorem centroid_zero_mass_guard_witness :
    centroid [[0, 0], [0, 0]] = .error "ZeroDivisionError: float division by zero" ∧
    ∃ x y, centroid [[5, 0], [0, 0]] = .ok (x, y) :=
  ⟨centroid_zero_mass_guard.1 [[0, 0], [0, 0]] (by decide),
   centroid_zero_mass_guard.2 [[5, 0], [0, 0]] (by decide)⟩

/- ### C5: axis projections (lines 46–47) -/

/-- Line 46: `projection_x = np.sum(gray_image, axis=0)` — for each column
`x` of a `H × W` image, the sum of intensities over all rows.  `W` is the
common row length. -/
def projection_x (img : Image) (W : ℕ) : List ℕ :=
  (List.range W).map (fun x => (img.map (fun row => row.getD x 0)).sum)

/-- Line 47: `projection_y = np.sum(gray_image, axis=1)` — for each row, the
sum of intensities over all columns. -/
def projection_y (img : Image) : List ℕ := img.map List.sum

lemma list_sum_map_add {α : Type} (l : List α) (f g : α → ℕ) :
    (l.map (fun x => f x + g x)).sum = (l.map f).sum + (l.map g).sum := by
  induction l with
  | nil => simp
  | cons a t ih => simp only [List.map_cons, List.sum_cons, ih]; omega

lemma sum_range_getD (row : List ℕ) :
    ((List.range row.length).map (fun x => row.getD x 0)).sum = row.sum := by
  induction row with
  | nil => simp
  | cons a t ih =>
    rw [List.length_cons, List.range_succ_eq_map, List.map_cons, List.map_map]
    have hcomp : ((fun x => (a :: t).getD x 0) ∘ Nat.succ) = (fun x => t.getD x 0) := by
      funext x
      simp [List.getD_cons_succ]
    rw [hcomp, List.sum_cons, List.getD_cons_zero, ih, List.sum_cons]

lemma projection_x_sum (img : Image) (W : ℕ) (hW : ∀ row ∈ img, row.length = W) :
    (projection_x img W).sum = (img.map List.sum).sum := by
  induction img with
  | nil => simp [projection_x]
  | cons row rest ih =>
    have hrow : row.length = W := hW row (List.mem_cons_self row rest)
    have hrest : ∀ r ∈ rest, r.length = W := fun r hr => hW r (List.mem_cons_of_mem row hr)
    unfold projection_x
    have hsplit : ((List.range W).map (fun x => (((row :: rest)).map (fun r => r.getD x 0)).sum)) =
        (List.range W).map (fun x => row.getD x 0 + ((rest.map (fun r => r.getD x 0)).sum)) := by
      refine List.map_congr_left ?_
      intro x _
      simp [List.map_cons, List.sum_cons]
    rw [hsplit, list_sum_map_add]
    unfold projection_x at ih
    rw [ih hrest, ← hrow, sum_range_getD]
    simp

/-- C5: for an image whose rows all have length `W`, the column projection
(line 46) has length `W`, the row projection (line 47) has length `H` (the
number of rows), and both projections sum to the total intensity mass. -/
theorem projections_lengths_and_mass (img : Image) (W : ℕ)
    (hW : ∀ row ∈ img, row.length = W) :
    (projection_x img W).length = W ∧
    (projection_y img).length = img.length ∧
    (projection_x img W).sum = totalIntensity img ∧
    (projection_y img).sum = totalIntensity img := by
  have hy : (projection_y img).sum = totalIntensity img := by
    unfold projection_y totalIntensity pixels
    rw [List.sum_flatten]
  refine ⟨by simp [projection_x], by simp [projection_y], ?_, hy⟩
  rw [projection_x_sum img W hW]
  unfold totalIntensity pixels
  rw [List.sum_flatten]

theorem projections_lengths_and_mass_witness :
    (∀ row ∈ ([[1, 2], [3, 4], [5, 6]] : Image), row.length = 2) ∧
    (projection_x [[1, 2], [3, 4], [5, 6]] 2).length = 2 ∧
    (projection_y [[1, 2], [3, 4], [5, 6]]).length = 3 ∧
    (projection_x [[1, 2], [3, 4], [5, 6]] 2).sum = totalIntensity [[1, 2], [3, 4], [5, 6]] ∧
    (projection_y [[1, 2], [3, 4], [5, 6]]).sum = totalIntensity [[1, 2], [3, 4], [5, 6]] :=
  ⟨by decide, (projections_lengths_and_mass [[1, 2], [3, 4], [5, 6]] 2 (by decide)).1,
   (projections_lengths_and_mass [[1, 2], [3, 4], [5, 6]] 2 (by decide)).2.1,
   (projections_lengths_and_mass [[1, 2], [3, 4], [5, 6]] 2 (by decide)).2.2.1,
   (projections_lengths_and_mass [[1, 2], [3, 4], [5, 6]] 2 (by decide)).2.2.2⟩

/- ### C8 and C10: population statistics (lines 43–44) -/

/-- The mean intensity over all pixel samples, the quantity `np.std`/`np.var`
centre on. -/
def mean (img : Image) : ℚ :=
  ((pixels img).map (fun (v : ℕ) => (v : ℚ))).sum / numPixels img

/-- Line 44: `variance = np.var(gray_image)` — the population variance
(`ddof = 0`) of all pixel intensity samples: the mean of the squared
deviations from the mean.  `np.var` of an empty array is NaN, so theorems
assume `numPixels img ≠ 0`.  The `std_dev = np.std(gray_image)` of line 43 is the
square root of this value; it appears in the theorems as `Real.sqrt` of
`variance`. -/
def variance (img : Image) : ℚ :=
  ((pixels img).map (fun (v : ℕ) => ((v : ℚ) - mean img) ^ 2)).sum / numPixels img

lemma mean_uniform (img : Image) (c : ℕ) (hne : numPixels img ≠ 0)
    (hc : ∀ p ∈ pixels img, p = c) : mean img = c := by
  unfold mean
  have hsum : ((pixels img).map (fun (v : ℕ) => (v : ℚ))).sum = (numPixels img : ℚ) * c := by
    rw [List.sum_eq_card_nsmul _ (c : ℚ) ?_]
    · rw [List.length_map, nsmul_eq_mul]
      rfl
    · intro x hx
      rw [List.mem_map] at hx
      obtain ⟨p, hp, hpx⟩ := hx
      rw [← hpx, hc p hp]
  rw [hsum, mul_div_cancel_left₀ _ (Nat.cast_ne_zero.mpr hne)]

/-- C8: for an image of uniform intensity `c` (and at least one pixel), the
variance of line 44 is `0` and the standard deviation of line 43 (the square
root of the variance) is `0`. -/
theorem uniform_image_variance_std (img : Image) (c : ℕ) (hne : numPixels img ≠ 0)
    (hc : ∀ p ∈ pixels img, p = c) :
    variance img = 0 ∧ Real.sqrt ((variance img : ℚ) : ℝ) = 0 := by
  have hv : variance img = 0 := by
    unfold variance
    have hz : ((pixels img).map (fun (v : ℕ) => ((v : ℚ) - mean img) ^ 2)).sum = 0 := by
      refine List.sum_eq_zero ?_
      intro x hx
      rw [List.mem_map] at hx
      obtain ⟨p, hp, hpx⟩ := hx
      rw [← hpx, hc p hp, mean_uniform img c hne hc, sub_self]
      exact zero_pow (by omega)
    rw [hz, zero_div]
  refine ⟨hv, ?_⟩
  rw [hv]
  simp

theorem uniform_image_variance_std_witness :
    (numPixels [[7, 7], [7, 7]] ≠ 0 ∧ ∀ p ∈ pixels [[7, 7], [7, 7]], p = 7) ∧
    variance [[7, 7], [7, 7]] = 0 ∧
    Real.sqrt ((variance [[7, 7], [7, 7]] : ℚ) : ℝ) = 0 :=
  ⟨⟨by decide, by decide⟩,
   uniform_image_variance_std [[7, 7], [7, 7]] 7 (by decide) (by decide)⟩

lemma variance_nonneg (img : Image) : 0 ≤ variance img := by
  unfold variance
  refine div_nonneg ?_ (Nat.cast_nonneg _)
  refine List.sum_nonneg ?_
  intro x hx
  rw [List.mem_map] at hx
  obtain ⟨p, _, hpx⟩ := hx
  rw [← hpx]
  exact sq_nonneg _

/-- C10: in every Statistics Record of `process_image`, the reported variance
(line 44) equals the square of the reported standard deviation (line 43):
`np.std` is the square root of the population variance `np.var` over the same
samples, and the variance is non-negative. -/
theorem variance_eq_std_dev_sq (img : Image) (_hne : numPixels img ≠ 0) :
    ((variance img : ℚ) : ℝ) = Real.sqrt ((variance img : ℚ) : ℝ) ^ 2 := by
  refine (Real.sq_sqrt ?_).symm
  exact_mod_cast variance_nonneg img

theorem variance_eq_std_dev_sq_witness :
    numPixels [[1, 2], [3, 4]] ≠ 0 ∧
    ((variance [[1, 2], [3, 4]] : ℚ) : ℝ) =
      Real.sqrt ((variance [[1, 2], [3, 4]] : ℚ) : ℝ) ^ 2 :=
  ⟨by decide, variance_eq_std_dev_sq [[1, 2], [3, 4]] (by decide)⟩

/- ### C2 and C4: the comparator `TestManager` (lines 104–129) -/

/-- Default relative tolerance of `np.isclose`, `rtol = 1e-5`.  The calls in
`TestManager` pass only `atol=0.01`, so this default is kept. -/
def rtol : ℚ := 1 / 100000

/-- The absolute tolerance passed at every `TestManager` call site:
`atol = 0.01`. -/
def atol : ℚ := 1 / 100

/-- `np.isclose(a, b, rtol=1e-5, atol=0.01)` on finite scalars:
`absolute(a - b) <= (atol + rtol * absolute(b))` per the numpy documentation.
(NaN never compares equal and infinities compare only to themselves; the
exact rational model has neither, and the float64 values at issue are all
rationals.) -/
def isclose (a b : ℚ) : Bool := |a - b| ≤ atol + rtol * |b|

/-- A Python boolean-like value: either a native `bool` or a numpy `np.bool_`
scalar, as produced by `np.isclose` on scalar inputs.  Both are truthy
exactly on their underlying value, but only the native kind is accepted by
`json.dump`. -/
inductive PyBool where
  | native : Bool → PyBool
  | numpy : Bool → PyBool
deriving DecidableEq

/-- Python truthiness of either kind of boolean. -/
def pyTruth : PyBool → Bool
  | .native b => b
  | .numpy b => b

/-- Returns `true` when the value is a native Python `bool`. -/
def PyBool.isNative : PyBool → Bool
  | .native _ => true
  | .numpy _ => false

/-- Lines 113–120: `test_std(expected, actual)` returns
`result = np.isclose(expected, actual, atol=0.01)`, a numpy bool scalar. -/
def test_std (expected actual : ℚ) : PyBool := .numpy (isclose expected actual)

/-- Lines 122–129: `test_dispersion(expected, actual)` performs the identical
comparison. -/
def test_dispersion (expected actual : ℚ) : PyBool := .numpy (isclose expected actual)

/-- C2 counterexample: at expected `5.0` and actual `5.01004` the comparator
returns true although `|5.0 − 5.01004| = 0.01004 > 0.01`: the check is not a
purely absolute-tolerance test, because the numpy default relative tolerance
`rtol = 1e-5` is still in force. -/
theorem test_std_not_pure_absolute :
    pyTruth (test_std 5 (501004 / 100000)) = true ∧
    ¬ |(5 : ℚ) - 501004 / 100000| ≤ 1 / 100 := by
  have habs : |(5 : ℚ) - 501004 / 100000| = 251 / 25000 := by
    rw [show (5 : ℚ) - 501004 / 100000 = -(251 / 25000) by norm_num, abs_neg,
      abs_of_nonneg (by norm_num : (0 : ℚ) ≤ 251 / 25000)]
  constructor
  · unfold test_std pyTruth isclose atol rtol
    refine decide_eq_true ?_
    rw [habs, abs_of_nonneg (by norm_num : (0 : ℚ) ≤ 501004 / 100000)]
    norm_num
  · rw [habs]
    norm_num

/-- C2 (amended): `test_std` and `test_dispersion` both return
`np.isclose(e, a, atol=0.01)`, which is true iff
`|e − a| ≤ 0.01 + 1e-5·|a|` (the default relative tolerance is kept, NaN
never equal); in particular `compare(5.0, 5.005)` is true and
`compare(5.0, 5.02)` is false. -/
theorem test_std_dispersion_tolerance :
    (∀ e a : ℚ, pyTruth (test_std e a) = true ↔ |e - a| ≤ 1 / 100 + |a| / 100000) ∧
    (∀ e a : ℚ, test_dispersion e a = test_std e a) ∧
    pyTruth (test_std 5 (5005 / 1000)) = true ∧
    pyTruth (test_std 5 (502 / 100)) = false := by
  refine ⟨?_, fun e a => rfl, ?_, ?_⟩
  · intro e a
    unfold test_std pyTruth isclose atol rtol
    rw [show (1 : ℚ) / 100 + 1 / 100000 * |a| = 1 / 100 + |a| / 100000 by ring]
    exact decide_eq_true_iff
  · unfold test_std pyTruth isclose atol rtol
    refine decide_eq_true ?_
    rw [show (5 : ℚ) - 5005 / 1000 = -(1 / 200) by norm_num, abs_neg,
      abs_of_nonneg (by norm_num : (0 : ℚ) ≤ 1 / 200),
      abs_of_nonneg (by norm_num : (0 : ℚ) ≤ 5005 / 1000)]
    norm_num
  · unfold test_std pyTruth isclose atol rtol
    refine decide_eq_false ?_
    rw [show (5 : ℚ) - 502 / 100 = -(1 / 50) by norm_num, abs_neg,
      abs_of_nonneg (by norm_num : (0 : ℚ) ≤ 1 / 50),
      abs_of_nonneg (by norm_num : (0 : ℚ) ≤ 502 / 100)]
    norm_num

/-- The numpy truth value of a boolean array, as taken by `if result:`
(line 107): a one-element array yields its element; any other length raises
`ValueError`. -/
def arrayTruth (l : List Bool) : Except String Bool :=
  match l with
  | [b] => .ok b
  | [] => .error "ValueError: The truth value of an empty array is ambiguous."
  | _ => .error "ValueError: The truth value of an array with more than one element is ambiguous. Use a.any() or a.all()"

/-- Lines 104–111: `test_position(expected, actual)` evaluates
`result = np.isclose(expected, actual, atol=0.01)` — element-wise over
same-length array-likes — and then branches on `if result:` before returning
`result`.  For a result of length other than one the truthiness test raises
`ValueError`, so the element-wise array is only ever returned for
one-element inputs. -/
def test_position (expected actual : List ℚ) : Except String (List Bool) :=
  let result := List.zipWith (fun e a => isclose e a) expected actual
  match arrayTruth result with
  | .ok _ => .ok result
  | .error msg => .error msg

/-- C4 counterexample: at expected `(10, 10)` and actual `(10, 10)` both
components are within tolerance, yet `test_position` raises `ValueError`
instead of returning a verdict, so it does not return a single boolean that
is true iff both component checks hold. -/
theorem test_position_no_single_verdict :
    test_position [10, 10] [10, 10] =
      .error "ValueError: The truth value of an array with more than one element is ambiguous. Use a.any() or a.all()" ∧
    isclose 10 10 = true := by
  have h : isclose 10 10 = true := by
    unfold isclose atol rtol
    refine decide_eq_true ?_
    rw [sub_self, abs_zero, abs_of_nonneg (by norm_num : (0 : ℚ) ≤ 10)]
    norm_num
  exact ⟨by simp [test_position, arrayTruth, h], h⟩

/-- C4 (amended): for every two-component expected and actual position,
`test_position` computes the element-wise tolerance checks, but the `if` on
the two-element result raises `ValueError`: no boolean verdict is ever
returned for two-component inputs. -/
theorem test_position_two_component_raises (e a : List ℚ)
    (he : e.length = 2) (ha : a.length = 2) :
    test_position e a =
      .error "ValueError: The truth value of an array with more than one element is ambiguous. Use a.any() or a.all()" := by
  obtain ⟨x1, x2, rfl⟩ := List.length_eq_two.mp he
  obtain ⟨y1, y2, rfl⟩ := List.length_eq_two.mp ha
  rfl

theorem test_position_two_component_raises_witness :
    (([(1 : ℚ), 2]).length = 2 ∧ ([(3 : ℚ), 4]).length = 2) ∧
    test_position [1, 2] [3, 4] =
      .error "ValueError: The truth value of an array with more than one element is ambiguous. Use a.any() or a.all()" :=
  ⟨⟨rfl, rfl⟩, test_position_two_component_raises [1, 2] [3, 4] rfl rfl⟩

/- ### C7: loaders (lines 12–18 and 29–33) -/

/-- A YAML-loaded configuration value: numbers, strings and nested mappings —
the native Python values `yaml.safe_load` produces for the expectation
groups. -/
inductive CfgVal where
  | num : ℚ → CfgVal
  | str : String → CfgVal
  | map : List (String × CfgVal) → CfgVal

/-- The loaded configuration: the three named groups built by
`load_config`. -/
structure Config where
  position : CfgVal
  std : CfgVal
  dispersion : CfgVal

/-- Python `dict.get(k, default)` over the key-ordered association list of a
dict. -/
def dict_get (d : List (String × CfgVal)) (k : String) (dflt : CfgVal) : CfgVal :=
  match d.find? (fun p => p.1 == k) with
  | some p => p.2
  | none => dflt

/-- Lines 12–18: `load_config` parses the YAML file into a mapping
`config_data` and builds the three groups with `config_data.get(group, {})`,
each absent group defaulting to the empty mapping. -/
def load_config (config_data : List (String × CfgVal)) : Config :=
  { position := dict_get config_data "position" (.map [])
    std := dict_get config_data "std" (.map [])
    dispersion := dict_get config_data "dispersion" (.map []) }

/-- Lines 29–33: `load_image` calls `cv2.imread(image_path)`, which yields no
data (`None`) when the file is missing or cannot be decoded; the code then
raises `FileNotFoundError` with the path in the message, and otherwise
returns the decoded pixel array.  The decode result is passed in as an
`Option`. -/
def load_image (decoded : Option Image) (image_path : String) : Except String Image :=
  match decoded with
  | none => .error ("FileNotFoundError: Image at path " ++ image_path ++ " not found.")
  | some img => .ok img

lemma dict_get_of_not_mem (d : List (String × CfgVal)) (k : String) (dflt : CfgVal)
    (h : k ∉ d.map Prod.fst) : dict_get d k dflt = dflt := by
  unfold dict_get
  have hf : d.find? (fun p => p.1 == k) = none := by
    rw [List.find?_eq_none]
    intro p hp
    simp only [beq_iff_eq]
    intro hk
    exact h (hk ▸ List.mem_map_of_mem Prod.fst hp)
  rw [hf]

/-- C7: when the image decode yields no data, `load_image` fails with the
`FileNotFoundError` "not found" message; and in `load_config` each of the
three groups absent from a well-formed (mapping-valued) config file resolves
to the empty mapping rather than an error. -/
theorem loaders_missing_behaviour :
    (∀ p : String, load_image none p =
      .error ("FileNotFoundError: Image at path " ++ p ++ " not found.")) ∧
    (∀ d : List (String × CfgVal), "position" ∉ d.map Prod.fst →
      (load_config d).position = .map []) ∧
    (∀ d : List (String × CfgVal), "std" ∉ d.map Prod.fst →
      (load_config d).std = .map []) ∧
    (∀ d : List (String × CfgVal), "dispersion" ∉ d.map Prod.fst →
      (load_config d).dispersion = .map []) := by
  refine ⟨fun p => rfl, fun d h => ?_, fun d h => ?_, fun d h => ?_⟩ <;>
    exact dict_get_of_not_mem d _ _ h

theorem loaders_missing_behaviour_witness :
    ("position" ∉ ([("std", CfgVal.num 5)].map Prod.fst) ∧
      "std" ∉ ([("position", CfgVal.num 5)].map Prod.fst) ∧
      "dispersion" ∉ ([("position", CfgVal.num 5)].map Prod.fst)) ∧
    load_image none "image.jpg" =
      .error ("FileNotFoundError: Image at path " ++ "image.jpg" ++ " not found.") ∧
    (load_config [("std", CfgVal.num 5)]).position = .map [] ∧
    (load_config [("position", CfgVal.num 5)]).std = .map [] ∧
    (load_config [("position", CfgVal.num 5)]).dispersion = .map [] :=
  ⟨⟨by decide, by decide, by decide⟩,
   loaders_missing_behaviour.1 "image.jpg",
   loaders_missing_behaviour.2.1 [("std", CfgVal.num 5)] (by decide),
   loaders_missing_behaviour.2.2.1 [("position", CfgVal.num 5)] (by decide),
   loaders_missing_behaviour.2.2.2 [("position", CfgVal.num 5)] (by decide)⟩

/- ### C6: the Result Record and the JSON sink (lines 52–56, 99–101, 141–145) -/

/-- The Result Record with the `tests` sub-mapping attached (lines 52–56 and
141–145): per metric the expected value (a YAML mapping) and the actual
value, plus the three test verdicts.  The actual std/variance values are
float64 values, hence rationals. -/
structure TestedResults where
  position_expected : CfgVal
  position_actual : ℕ × ℕ
  std_expected : CfgVal
  std_actual : ℚ
  dispersion_expected : CfgVal
  dispersion_actual : ℚ
  position_test : PyBool
  std_test : PyBool
  dispersion_test : PyBool

/-- The JSON document `json.dump` writes for a Result Record: the same data
with native booleans.  Numbers, strings, lists and string-keyed dicts of
native values serialize and re-parse losslessly (Python ints are arbitrary
precision; a float64 round-trips exactly through its shortest-repr text
form), so the textual layer is modelled structurally. -/
structure SerializedResults where
  position_expected : CfgVal
  position_actual : ℕ × ℕ
  std_expected : CfgVal
  std_actual : ℚ
  dispersion_expected : CfgVal
  dispersion_actual : ℚ
  position_test : Bool
  std_test : Bool
  dispersion_test : Bool

/-- `json.dump` on a Python bool-like value: a native `bool` serializes; a
numpy `np.bool_` scalar is rejected with `TypeError` (it is not a `bool` or
`int` subclass). -/
def dumpPyBool : PyBool → Except String Bool
  | .native b => .ok b
  | .numpy _ => .error "TypeError: Object of type bool_ is not JSON serializable"

/-- Lines 99–101: `save_results_to_json` hands the full Result Record to
`json.dump`.  Every part of the record is a native JSON-encodable value
except the three test verdicts, whose serialization may raise. -/
def save_results_to_json (r : TestedResults) : Except String SerializedResults := do
  let p ← dumpPyBool r.position_test
  let s ← dumpPyBool r.std_test
  let d ← dumpPyBool r.dispersion_test
  return { position_expected := r.position_expected, position_actual := r.position_actual,
           std_expected := r.std_expected, std_actual := r.std_actual,
           dispersion_expected := r.dispersion_expected,
           dispersion_actual := r.dispersion_actual,
           position_test := p, std_test := s, dispersion_test := d }

/-- Re-parsing the written JSON document with `json.loads` yields a record
whose test verdicts are native booleans. -/
def parse_results (s : SerializedResults) : TestedResults :=
  { position_expected := s.position_expected, position_actual := s.position_actual,
    std_expected := s.std_expected, std_actual := s.std_actual,
    dispersion_expected := s.dispersion_expected, dispersion_actual := s.dispersion_actual,
    position_test := .native s.position_test, std_test := .native s.std_test,
    dispersion_test := .native s.dispersion_test }

/-- The Result Record the pipeline (lines 141–145) hands to the JSON sink in
the end-to-end scenario of the spec — config
`{position: {x: 10, y: 10}, std: {value: 12.0}, dispersion: {value: 144.0}}`
with matching actual values — with the verdicts of `TestManager`, which are
numpy bool scalars.  (`test_position` in fact raises on two-component input,
see the C4 theorems; the verdict it was meant to contribute is likewise a
numpy bool.) -/
def pipelineRecord : TestedResults :=
  { position_expected := .map [("x", .num 10), ("y", .num 10)]
    position_actual := (10, 10)
    std_expected := .map [("value", .num 12)]
    std_actual := 12
    dispersion_expected := .map [("value", .num 144)]
    dispersion_actual := 144
    position_test := .numpy true
    std_test := test_std 12 12
    dispersion_test := test_dispersion 144 144 }

/-- C6 counterexample: the record produced by the pipeline carries numpy bool
verdicts in its `tests` sub-mapping, and `json.dump` rejects those:
`save_results_to_json` raises `TypeError` instead of writing the record, so
the serialization does not round-trip without failure. -/
theorem save_results_pipeline_record_fails :
    save_results_to_json pipelineRecord =
      .error "TypeError: Object of type bool_ is not JSON serializable" := rfl

lemma PyBool.isNative_exists (p : PyBool) (h : p.isNative = true) :
    ∃ b, p = .native b := by
  cases p with
  | native b => exact ⟨b, rfl⟩
  | numpy b => simp [PyBool.isNative] at h

/-- C6 (amended): a Result Record whose three test verdicts are native
booleans serializes via `save_results_to_json` and re-parses to identical
expected, actual and tests values; the verdicts actually produced by
`TestManager` are numpy bool scalars, for which `json.dump` raises
`TypeError` (caught by the caller), so the pipeline record itself does not
round-trip. -/
theorem json_roundtrip_native_tests (r : TestedResults)
    (hp : r.position_test.isNative = true) (hs : r.std_test.isNative = true)
    (hd : r.dispersion_test.isNative = true) :
    ∃ s, save_results_to_json r = .ok s ∧ parse_results s = r := by
  obtain ⟨bp, hbp⟩ := PyBool.isNative_exists _ hp
  obtain ⟨bs, hbs⟩ := PyBool.isNative_exists _ hs
  obtain ⟨bd, hbd⟩ := PyBool.isNative_exists _ hd
  refine ⟨{ position_expected := r.position_expected, position_actual := r.position_actual,
            std_expected := r.std_expected, std_actual := r.std_actual,
            dispersion_expected := r.dispersion_expected,
            dispersion_actual := r.dispersion_actual,
            position_test := bp, std_test := bs, dispersion_test := bd }, ?_, ?_⟩
  · unfold save_results_to_json
    rw [hbp, hbs, hbd]
    rfl
  · unfold parse_results
    cases r with
    | mk pe pa se sa de da pt st dt =>
      simp only at hbp hbs hbd
      rw [← hbp, ← hbs, ← hbd]

/-- A record identical to `pipelineRecord` except that its verdicts are
native booleans. -/
def nativeRecord : TestedResults :=
  { pipelineRecord with
    position_test := .native true, std_test := .native true,
    dispersion_test := .native true }

theorem json_roundtrip_native_tests_witness :
    (nativeRecord.position_test.isNative = true ∧
      nativeRecord.std_test.isNative = true ∧
      nativeRecord.dispersion_test.isNative = true) ∧
    ∃ s, save_results_to_json nativeRecord = .ok s ∧ parse_results s = nativeRecord :=
  ⟨⟨rfl, rfl, rfl⟩, json_roundtrip_native_tests nativeRecord rfl rfl rfl⟩

/- ### C9: class construction (lines 8–10, 24–27, 96–97, 135–136) -/

/-- A Python class, as its name plus the names of the methods it defines. -/
structure ClassDef where
  name : String
  methods : List String

/-- `class ConfigLoader` (lines 7–21): defines `init`, `load_config` and
`get_config` — no `__init__`. -/
def ConfigLoaderClass : ClassDef :=
  { name := "ConfigLoader", methods := ["init", "load_config", "get_config"] }

/-- `class ImageProcessor` (lines 23–57): defines `init`, `load_image` and
`process_image` — no `__init__`. -/
def ImageProcessorClass : ClassDef :=
  { name := "ImageProcessor", methods := ["init", "load_image", "process_image"] }

/-- `class JSONDataSaver` (lines 95–101): defines `init` and
`save_results_to_json` — no `__init__`. -/
def JSONDataSaverClass : ClassDef :=
  { name := "JSONDataSaver", methods := ["init", "save_results_to_json"] }

/-- Python construction semantics for `C(arg1, …, argN)`: `type.__call__`
runs `object.__new__` and then the initializer.  When the class defines no
`__init__` (the three classes above name theirs `init`), the inherited
`object.__init__` runs, and it raises `TypeError: C() takes no arguments`
whenever any argument is passed.  No user code — in particular no file
read — runs before that check; the result is independent of any file-system
state, as the type of this function shows. -/
def construct (c : ClassDef) (numArgs : ℕ) : Except String Unit :=
  if "__init__" ∈ c.methods then .ok ()
  else if numArgs = 0 then .ok ()
  else .error ("TypeError: " ++ c.name ++ "() takes no arguments")

/-- C9: constructing any of the three classes with the arguments used at the
public interface (`ConfigLoader(config_path)`,
`ImageProcessor(image_path, config_loader)`, `JSONDataSaver(filename)`)
fails with `TypeError` before any file is read, because each class names its
initializer `init` rather than `__init__`; an argument-less construction
succeeds, so the loading behaviour is reachable only by calling `init`
explicitly on such an instance. -/
theorem construct_with_args_type_error :
    ("init" ∈ ConfigLoaderClass.methods ∧ "__init__" ∉ ConfigLoaderClass.methods ∧
      construct ConfigLoaderClass 1 = .error "TypeError: ConfigLoader() takes no arguments" ∧
      construct ConfigLoaderClass 0 = .ok ()) ∧
    ("init" ∈ ImageProcessorClass.methods ∧ "__init__" ∉ ImageProcessorClass.methods ∧
      construct ImageProcessorClass 2 = .error "TypeError: ImageProcessor() takes no arguments" ∧
      construct ImageProcessorClass 0 = .ok ()) ∧
    ("init" ∈ JSONDataSaverClass.methods ∧ "__init__" ∉ JSONDataSaverClass.methods ∧
      construct JSONDataSaverClass 1 = .error "TypeError: JSONDataSaver() takes no arguments" ∧
      construct JSONDataSaverClass 0 = .ok ()) :=
  ⟨⟨by decide, by decide, rfl, rfl⟩,
   ⟨by decide, by decide, rfl, rfl⟩,
   ⟨by decide, by decide, rfl, rfl⟩⟩

end LightSpot
